import Mathlib

/-!
# Verification of the day-select CBL / reward engine (`src/main.py`)

Shallow embedding of the baseline (CBL) and reward computations of
`src/main.py` of the `DR_onsite` repository.

Modelling conventions:

* All `datetime` values in the source are normalized to one fixed local
  timezone (`Asia/Taipei`) via `to_taipei` before any comparison, and the
  normalization is order- and date/time-preserving on the normalized
  values.  The embedding therefore works directly with local calendar
  dates plus a local time-of-day in seconds; `to_taipei` is the identity
  on this representation.
* Python `float` quantities (kW values, rates) are idealized as exact
  rationals (`ℚ`); `round(x, 1)` is modelled as exact round-half-to-even
  to one decimal, which is Python 3 semantics on exactly representable
  values.
* The in-memory store `METER_STORE` and `get_customer_records` are out of
  scope per the spec (§1, §6): the engine consumes a per-customer record
  list, which is passed to the functions directly.  Sorting by timestamp
  does not affect any computed quantity (filters are order-preserving and
  averages are sums), so the record list is taken as given.
* Raised `HTTPException`s (and the `ZeroDivisionError` reachable when
  `min_baseline_days = 0`) are modelled by `Except DRError`.
-/

/-- A (proleptic Gregorian) calendar date, as in Python `datetime.date`. -/
structure Date where
  year : Nat
  month : Nat
  day : Nat
deriving DecidableEq

/-- Gregorian leap-year rule. -/
def isLeapYear (y : Nat) : Bool :=
  (y % 4 == 0 && y % 100 != 0) || y % 400 == 0

/-- Number of days in month `m` of year `y`. -/
def daysInMonth (y m : Nat) : Nat :=
  if m = 2 then (if isLeapYear y then 29 else 28)
  else if m = 4 ∨ m = 6 ∨ m = 9 ∨ m = 11 then 30
  else 31

/-- Days in year `y` strictly before month `m`. -/
def daysBeforeMonth (y m : Nat) : Nat :=
  (match m with
   | 1 => 0 | 2 => 31 | 3 => 59 | 4 => 90 | 5 => 120 | 6 => 151
   | 7 => 181 | 8 => 212 | 9 => 243 | 10 => 273 | 11 => 304 | _ => 334)
  + (if 3 ≤ m ∧ isLeapYear y then 1 else 0)

/-- Day count since 0001-01-01 (which is day 0, a Monday) in the
proleptic Gregorian calendar. -/
def Date.toDays (d : Date) : Nat :=
  365 * (d.year - 1) + (d.year - 1) / 4 + (d.year - 1) / 400
    + daysBeforeMonth d.year d.month + (d.day - 1) - (d.year - 1) / 100

/-- Python `date.weekday()`: Monday = 0, ..., Sunday = 6. -/
def Date.weekday (d : Date) : Nat := d.toDays % 7

/-- The previous calendar day (Python `d - timedelta(days=1)`). -/
def Date.pred (d : Date) : Date :=
  if 1 < d.day then ⟨d.year, d.month, d.day - 1⟩
  else if 1 < d.month then ⟨d.year, d.month - 1, daysInMonth d.year (d.month - 1)⟩
  else ⟨d.year - 1, 12, 31⟩

/-- The next calendar day (Python `d + timedelta(days=1)`). -/
def Date.succ (d : Date) : Date :=
  if d.day < daysInMonth d.year d.month then ⟨d.year, d.month, d.day + 1⟩
  else if d.month < 12 then ⟨d.year, d.month + 1, 1⟩
  else ⟨d.year + 1, 1, 1⟩

/-- A timezone-normalized local datetime: a date plus a time-of-day in
seconds since local midnight (`0 ≤ time < 86400` for values arising from
Python `datetime`). -/
structure DateTime where
  date : Date
  time : Nat
deriving DecidableEq

/-- Absolute second count; Python aware-`datetime` comparison and
subtraction agree with comparison and subtraction of this quantity. -/
def DateTime.toSeconds (t : DateTime) : Nat :=
  86400 * t.date.toDays + t.time

/-- Source `MeterRecord` of `src/main.py` (the `customer_id` field is the store
key and is dropped: the engine receives the records of one customer). -/
structure MeterRecord where
  timestamp : DateTime
  kw : ℚ
deriving DecidableEq

/-- Source `is_weekend` of `src/main.py`: Saturday (5) or Sunday (6). -/
def is_weekend (d : Date) : Bool :=
  decide (5 ≤ d.weekday)

/-- Source `is_off_peak_day` of `src/main.py`: a configured special off-peak day
(`OFF_PEAK_SPECIAL_DAYS`, a configurable calendar, empty by default in the
source), or any Sunday. -/
def is_off_peak_day (offPeakSpecialDays : List Date) (d : Date) : Bool :=
  decide (d ∈ offPeakSpecialDays) || decide (d.weekday = 6)

/-- Source `is_in_day_select_season` of `src/main.py`: May 1 through October 31
inclusive, by month/day comparison. -/
def is_in_day_select_season (d : Date) : Bool :=
  decide ((5 < d.month ∨ (d.month = 5 ∧ 1 ≤ d.day)) ∧
          (d.month < 10 ∨ (d.month = 10 ∧ d.day ≤ 31)))

/-- Source `filter_records_by_time_window` of `src/main.py`: samples on
`target_date` whose time-of-day lies in `[start_t, end_t)`. -/
def filter_records_by_time_window (records : List MeterRecord) (target_date : Date)
    (start_t end_t : Nat) : List MeterRecord :=
  records.filter fun r =>
    decide (r.timestamp.date = target_date ∧
            start_t ≤ r.timestamp.time ∧ r.timestamp.time < end_t)

/-- Source `filter_records_cross_day` of `src/main.py`: samples on `target_date`
at or after `start_t`, together with samples on the next day before
`end_t`.  (The two source conditions are mutually exclusive, so the
source's two sequential appends equal one filter by their disjunction.) -/
def filter_records_cross_day (records : List MeterRecord) (target_date : Date)
    (start_t end_t : Nat) : List MeterRecord :=
  records.filter fun r =>
    decide ((r.timestamp.date = target_date ∧ start_t ≤ r.timestamp.time) ∨
            (r.timestamp.date = target_date.succ ∧ r.timestamp.time < end_t))

/-- Source `average_kw` of `src/main.py`. -/
def average_kw (records : List MeterRecord) : Option ℚ :=
  if records = [] then none
  else some ((records.map (fun r => r.kw)).sum / (records.length : ℚ))

/-- The failure outcomes of the two computations: the `HTTPException`s
raised by `src/main.py`, plus the `ZeroDivisionError` that Python would
raise at line 211 when `min_baseline_days = 0` leaves no qualifying day. -/
inductive DRError where
  | invalidWindow
  | outOfSeason
  | noData
  | insufficientBaseline (found : Nat)
  | invalidCommitment
  | unsupportedDuration
  | zeroDivisionError
deriving DecidableEq

/-- Source `DaySelectCBLResponse` of `src/main.py`: the final CBL together with
the `detail` entries (each `detail` key is a field here). -/
structure DaySelectCBLResponse where
  cbl_kw : ℚ
  baseline_source_days : List Date
  cbl1_kw : ℚ
  af_kw : ℚ
  cbl1_plus_af_kw : ℚ
  cbl2_kw : ℚ
  hist_adjust_avg_kw : ℚ
  today_adjust_avg_kw : ℚ
deriving DecidableEq

/-- Source `DaySelectRewardResponse` of `src/main.py` (reward-specific fields;
the echoed request fields and the `detail` copy are omitted as they
duplicate fields already present). -/
structure DaySelectRewardResponse where
  committed_capacity_kw : ℚ
  cbl_kw : ℚ
  actual_avg_kw : ℚ
  actual_reduction_kw : ℚ
  execution_rate : ℚ
  reduction_ratio : ℚ
  tariff_rate : ℚ
  event_duration_hours : ℚ
  reward_ntd : ℚ
  baseline_source_days : List Date
deriving DecidableEq

/-- Whether a candidate day qualifies for the baseline (the condition of
the search loop, `src/main.py` lines 186-193): not a weekend, not an
off-peak day, inside the season, and with at least one sample inside the
event's time-of-day window. -/
def qualifiesAsBaselineDay (offPeak : List Date) (records : List MeterRecord)
    (start_t end_t : Nat) (d : Date) : Bool :=
  !(is_weekend d) && !(is_off_peak_day offPeak d) && is_in_day_select_season d &&
    !(filter_records_by_time_window records d start_t end_t).isEmpty

/-- The backward search loop of `src/main.py` lines 185-195: starting at
`cur` with accumulator `acc` and remaining budget `budget` (initially the
90-day `search_limit`), collect qualifying days walking backward until
`min_baseline_days` are collected or the budget is exhausted. -/
def searchBaselineDays (offPeak : List Date) (records : List MeterRecord)
    (start_t end_t min_baseline_days : Nat) :
    List Date → Date → Nat → List Date
  | acc, _, 0 => acc
  | acc, cur, budget + 1 =>
    if min_baseline_days ≤ acc.length then acc
    else if qualifiesAsBaselineDay offPeak records start_t end_t cur then
      searchBaselineDays offPeak records start_t end_t min_baseline_days
        (acc ++ [cur]) cur.pred budget
    else
      searchBaselineDays offPeak records start_t end_t min_baseline_days
        acc cur.pred budget

/-- All qualifying days among the `budget` days walking backward from
`cur` (the search loop without the early stop), used to state what count
an `InsufficientBaseline` failure reports. -/
def qualifyingDays (offPeak : List Date) (records : List MeterRecord)
    (start_t end_t : Nat) : Date → Nat → List Date
  | _, 0 => []
  | cur, budget + 1 =>
    if qualifiesAsBaselineDay offPeak records start_t end_t cur then
      cur :: qualifyingDays offPeak records start_t end_t cur.pred budget
    else
      qualifyingDays offPeak records start_t end_t cur.pred budget

/-- Insert a date into a chronologically sorted list. -/
def insertDate (d : Date) : List Date → List Date
  | [] => [d]
  | x :: xs => if d.toDays ≤ x.toDays then d :: x :: xs else x :: insertDate d xs

/-- Python `sorted` on a list of dates (chronological order). -/
def sortDates : List Date → List Date
  | [] => []
  | x :: xs => insertDate x (sortDates xs)

/-- Start of the fixed overnight load-adjustment window: 22:00. -/
def ADJUST_START : Nat := 22 * 3600

/-- End of the fixed overnight load-adjustment window: 00:00 (midnight,
i.e. `time(0, 0)` in the source). -/
def ADJUST_END : Nat := 0

/-- Per-qualifying-day averages of the samples inside the event window
(`src/main.py` lines 204-209): days whose window is empty contribute
nothing (`average_kw` returns `None`). -/
def eventWindowAvgs (records : List MeterRecord) (start_t end_t : Nat)
    (days : List Date) : List ℚ :=
  days.filterMap fun d =>
    average_kw (filter_records_by_time_window records d start_t end_t)

/-- Per-qualifying-day averages over the overnight adjustment window
(`src/main.py` lines 217-222). -/
def histAdjustList (records : List MeterRecord) (days : List Date) : List ℚ :=
  days.filterMap fun d =>
    average_kw (filter_records_cross_day records d ADJUST_START ADJUST_END)

/-- Source `hist_adjust_avg_kw` (`src/main.py` line 224): mean of the per-day
overnight averages, `0.0` when there are none. -/
def histAdjustAvg (records : List MeterRecord) (days : List Date) : ℚ :=
  if histAdjustList records days = [] then 0
  else (histAdjustList records days).sum / ((histAdjustList records days).length : ℚ)

/-- Source `today_adjust_avg` (`src/main.py` lines 226-227): the event day's own
overnight average, `0.0` when there are no samples (Python `or 0.0`; the
only falsy value `average_kw` can yield besides `None` is `0.0` itself,
so `Option.getD 0` is equivalent). -/
def todayAdjustAvg (records : List MeterRecord) (event_date : Date) : ℚ :=
  (average_kw (filter_records_cross_day records event_date ADJUST_START ADJUST_END)).getD 0

/-- Steps 2-3 and the CBL1/CBL2 capping of `src/main.py` lines 203-256,
assembling the response from the collected baseline days. -/
def mkCBLResponse (records : List MeterRecord) (event_date : Date)
    (start_t end_t : Nat) (contract_capacity_kw : Option ℚ)
    (baseline_days : List Date) : DaySelectCBLResponse :=
  let avgs := eventWindowAvgs records start_t end_t baseline_days
  let cbl1_kw := avgs.sum / (avgs.length : ℚ)
  let hist_adjust_avg_kw := histAdjustAvg records baseline_days
  let today_adjust_avg := todayAdjustAvg records event_date
  let af_kw := max (today_adjust_avg - hist_adjust_avg_kw) 0
  let cbl1_plus_af_kw := cbl1_kw + af_kw
  let cbl2_kw := contract_capacity_kw.getD cbl1_plus_af_kw
  let final_cbl := if cbl1_plus_af_kw < cbl2_kw then cbl1_plus_af_kw else cbl2_kw
  { cbl_kw := final_cbl
    baseline_source_days := sortDates baseline_days
    cbl1_kw := cbl1_kw
    af_kw := af_kw
    cbl1_plus_af_kw := cbl1_plus_af_kw
    cbl2_kw := cbl2_kw
    hist_adjust_avg_kw := hist_adjust_avg_kw
    today_adjust_avg_kw := today_adjust_avg }

/-- Source `compute_day_select_cbl` of `src/main.py`.  The event datetimes are
already in normalized local form (`to_taipei` is the identity here), and
`records` is the customer's record list (`get_customer_records`). -/
def compute_day_select_cbl (offPeak : List Date) (records : List MeterRecord)
    (event_start event_end : DateTime) (contract_capacity_kw : Option ℚ)
    (min_baseline_days : Nat) : Except DRError DaySelectCBLResponse :=
  if event_end.toSeconds ≤ event_start.toSeconds then
    .error .invalidWindow
  else if !(is_in_day_select_season event_start.date) then
    .error .outOfSeason
  else if records = [] then
    .error .noData
  else if (searchBaselineDays offPeak records event_start.time event_end.time
      min_baseline_days [] event_start.date.pred 90).length < min_baseline_days then
    .error (.insufficientBaseline (searchBaselineDays offPeak records event_start.time
      event_end.time min_baseline_days [] event_start.date.pred 90).length)
  else if eventWindowAvgs records event_start.time event_end.time
      (searchBaselineDays offPeak records event_start.time event_end.time
        min_baseline_days [] event_start.date.pred 90) = [] then
    .error .zeroDivisionError
  else
    .ok (mkCBLResponse records event_start.date event_start.time event_end.time
      contract_capacity_kw
      (searchBaselineDays offPeak records event_start.time event_end.time
        min_baseline_days [] event_start.date.pred 90))

/-- Round-half-to-even to an integer: the rounding of Python 3's builtin
`round` (idealized to exact rational arithmetic). -/
def roundHalfToEven (q : ℚ) : ℤ :=
  if q - Int.floor q < 1/2 then Int.floor q
  else if 1/2 < q - Int.floor q then Int.floor q + 1
  else if Int.floor q % 2 = 0 then Int.floor q else Int.floor q + 1

/-- Python `round(x, 1)` (`src/main.py` line 316), idealized to exact
rational arithmetic: round-half-to-even at the first decimal place. -/
def pyRound1 (q : ℚ) : ℚ :=
  ((roundHalfToEven (q * 10) : ℤ) : ℚ) / 10

/-- The 1.2 cap of `src/main.py` lines 318-319. -/
def capAt12 (x : ℚ) : ℚ :=
  if 1.2 < x then 1.2 else x

/-- Source `x_ratio_rounded` of `src/main.py` lines 314-319: the execution rate,
rounded to one decimal then capped at 1.2. -/
def executionRate (actual_reduction_kw committed_capacity_kw : ℚ) : ℚ :=
  capAt12 (pyRound1 (actual_reduction_kw / committed_capacity_kw))

/-- The tier table of `src/main.py` lines 322-329 mapping the (rounded,
capped) execution rate to the reduction ratio. -/
def reductionRatioOf (x : ℚ) : ℚ :=
  if x < 0.6 then 0
  else if x < 0.8 then 0.8
  else if x < 0.95 then 1
  else 1.2

/-- Source `event_duration_hours` of `src/main.py` line 332. -/
def eventDurationHours (event_start event_end : DateTime) : ℚ :=
  ((event_end.toSeconds : ℚ) - (event_start.toSeconds : ℚ)) / 3600

/-- The duration-to-tariff lookup of `src/main.py` lines 334-344:
`none` means the `UnsupportedDuration` failure. -/
def tariffForDuration (duration_hours : ℚ) : Option ℚ :=
  if |duration_hours - 2| < 0.1 then some 2.47
  else if |duration_hours - 4| < 0.1 then some 1.84
  else if |duration_hours - 6| < 0.1 then some 1.69
  else none

/-- The event-day records used for `actual_avg_kw` (`src/main.py` lines
300-303): cross-midnight filter when the event ends on a later date,
same-day filter otherwise. -/
def actualEventRecords (records : List MeterRecord)
    (event_start event_end : DateTime) : List MeterRecord :=
  if event_end.date ≠ event_start.date then
    filter_records_cross_day records event_start.date event_start.time event_end.time
  else
    filter_records_by_time_window records event_start.date event_start.time event_end.time

/-- Source `actual_avg_kw` (`src/main.py` line 304), `0.0` when no samples. -/
def actualAvgKw (records : List MeterRecord) (event_start event_end : DateTime) : ℚ :=
  (average_kw (actualEventRecords records event_start event_end)).getD 0

/-- Source `actual_reduction_kw` (`src/main.py` line 307). -/
def actualReductionKw (cbl_kw : ℚ) (records : List MeterRecord)
    (event_start event_end : DateTime) : ℚ :=
  max (cbl_kw - actualAvgKw records event_start event_end) 0

/-- Assembly of the successful reward response (`src/main.py` lines
346-385). -/
def mkRewardResponse (records : List MeterRecord) (event_start event_end : DateTime)
    (committed_capacity_kw : ℚ) (cbl_resp : DaySelectCBLResponse)
    (tariff_rate : ℚ) : DaySelectRewardResponse :=
  let actual_reduction_kw := actualReductionKw cbl_resp.cbl_kw records event_start event_end
  let x_ratio_rounded := executionRate actual_reduction_kw committed_capacity_kw
  let reduction_ratio := reductionRatioOf x_ratio_rounded
  let event_duration_hours := eventDurationHours event_start event_end
  { committed_capacity_kw := committed_capacity_kw
    cbl_kw := cbl_resp.cbl_kw
    actual_avg_kw := actualAvgKw records event_start event_end
    actual_reduction_kw := actual_reduction_kw
    execution_rate := x_ratio_rounded
    reduction_ratio := reduction_ratio
    tariff_rate := tariff_rate
    event_duration_hours := event_duration_hours
    reward_ntd := committed_capacity_kw * x_ratio_rounded * event_duration_hours
      * tariff_rate * reduction_ratio
    baseline_source_days := cbl_resp.baseline_source_days }

/-- Source `compute_day_select_reward` of `src/main.py`: recompute the CBL with
the same rules, propagate its failures, then check the commitment, pick
the tariff by duration, and assemble the reward. -/
def compute_day_select_reward (offPeak : List Date) (records : List MeterRecord)
    (event_start event_end : DateTime) (contract_capacity_kw : Option ℚ)
    (committed_capacity_kw : ℚ) (min_baseline_days : Nat) :
    Except DRError DaySelectRewardResponse :=
  match compute_day_select_cbl offPeak records event_start event_end
      contract_capacity_kw min_baseline_days with
  | .error e => .error e
  | .ok cbl_resp =>
    if committed_capacity_kw ≤ 0 then .error .invalidCommitment
    else
      match tariffForDuration (eventDurationHours event_start event_end) with
      | none => .error .unsupportedDuration
      | some tariff_rate =>
        .ok (mkRewardResponse records event_start event_end committed_capacity_kw
          cbl_resp tariff_rate)

/-- Modelled from the spec: the rounding rule as §4.3 step 5 words it,
"standard half-away-from-zero rounding to one decimal place", for
comparison against the source's `pyRound1`. -/
def specRoundHalfAwayFromZero1 (q : ℚ) : ℚ :=
  if 0 ≤ q then ((Int.floor (q * 10 + 1/2) : ℤ) : ℚ) / 10
  else -(((Int.floor (-q * 10 + 1/2) : ℤ) : ℚ) / 10)

/-- The execution rate as the spec claims it: half-away-from-zero
rounding, then the 1.2 cap. -/
def specExecutionRate (actual_reduction_kw committed_capacity_kw : ℚ) : ℚ :=
  capAt12 (specRoundHalfAwayFromZero1 (actual_reduction_kw / committed_capacity_kw))

/-- August 2024 date helper for the concrete witness scenario. -/
def aug24 (day : Nat) : Date := ⟨2024, 8, day⟩

/-- The weekday, in-season days before 2024-08-30 that carry a sample in
the witness scenario: the 20 most recent qualifying days. -/
def demoDayNums : List Nat :=
  [29, 28, 27, 26, 23, 22, 21, 20, 19, 16, 15, 14, 13, 12, 9, 8, 7, 6, 5, 2]

/-- Witness record set: one 85 kW sample at 15:00 on each of the 20
qualifying days, and no overnight or event-day samples. -/
def demoRecords : List MeterRecord :=
  demoDayNums.map fun d => { timestamp := { date := aug24 d, time := 15 * 3600 }, kw := 85 }

/-- Witness event start: 2024-08-30 (a Friday) 14:00 local. -/
def demoStart : DateTime := { date := aug24 30, time := 14 * 3600 }

/-- Witness event end: 2024-08-30 18:00 local (a 4-hour event). -/
def demoEnd : DateTime := { date := aug24 30, time := 18 * 3600 }

/-- Witness event end for a 3-hour event: 2024-08-30 17:00 local. -/
def demo3hEnd : DateTime := { date := aug24 30, time := 17 * 3600 }

/-- The 20 qualifying days of the witness scenario, chronologically. -/
def demoBaselineDates : List Date :=
  [aug24 2, aug24 5, aug24 6, aug24 7, aug24 8, aug24 9, aug24 12, aug24 13, aug24 14,
   aug24 15, aug24 16, aug24 19, aug24 20, aug24 21, aug24 22, aug24 23, aug24 26,
   aug24 27, aug24 28, aug24 29]

/-- The CBL response computed on the witness scenario (for both the
4-hour and the 3-hour event windows, whose per-day averages agree). -/
def demoCBLResponse : DaySelectCBLResponse :=
  { cbl_kw := 85, baseline_source_days := demoBaselineDates, cbl1_kw := 85, af_kw := 0,
    cbl1_plus_af_kw := 85, cbl2_kw := 85, hist_adjust_avg_kw := 0, today_adjust_avg_kw := 0 }

/-- The reward response computed on the witness scenario with a 100 kW
commitment and the 4-hour event. -/
def demoRewardResponse : DaySelectRewardResponse :=
  { committed_capacity_kw := 100, cbl_kw := 85, actual_avg_kw := 0,
    actual_reduction_kw := 85, execution_rate := 0.8, reduction_ratio := 1,
    tariff_rate := 1.84, event_duration_hours := 4, reward_ntd := 588.8,
    baseline_source_days := demoBaselineDates }

/-- The reward response computed on the witness scenario with a 340 kW
commitment (set up so the raw execution ratio is exactly 85/340 = 0.25,
a decimal rounding tie). -/
def demoReward340Response : DaySelectRewardResponse :=
  { committed_capacity_kw := 340, cbl_kw := 85, actual_avg_kw := 0,
    actual_reduction_kw := 85, execution_rate := 0.2, reduction_ratio := 0,
    tariff_rate := 1.84, event_duration_hours := 4, reward_ntd := 0,
    baseline_source_days := demoBaselineDates }

/-- A record set with one single sample, so that only one qualifying day
exists in the whole 90-day search window. -/
def failRecords : List MeterRecord :=
  [{ timestamp := { date := aug24 29, time := 15 * 3600 }, kw := 85 }]

set_option maxRecDepth 8000

theorem mem_insertDate {a d : Date} {l : List Date} :
    a ∈ insertDate d l ↔ a = d ∨ a ∈ l := by
  induction l with
  | nil => simp [insertDate]
  | cons x xs ih =>
    simp only [insertDate]
    split
    · simp [or_comm, or_assoc, or_left_comm]
    · simp [ih]
      tauto

theorem mem_sortDates {a : Date} {l : List Date} :
    a ∈ sortDates l ↔ a ∈ l := by
  induction l with
  | nil => simp [sortDates]
  | cons x xs ih => simp [sortDates, mem_insertDate, ih]

theorem length_insertDate (d : Date) (l : List Date) :
    (insertDate d l).length = l.length + 1 := by
  induction l with
  | nil => simp [insertDate]
  | cons x xs ih =>
    simp only [insertDate]
    split
    · simp
    · simp [ih]

theorem length_sortDates (l : List Date) :
    (sortDates l).length = l.length := by
  induction l with
  | nil => rfl
  | cons x xs ih => simp [sortDates, length_insertDate, ih]

theorem searchBaselineDays_eq_take (op : List Date) (recs : List MeterRecord)
    (s e m : Nat) (b : Nat) :
    ∀ (acc : List Date) (cur : Date),
    searchBaselineDays op recs s e m acc cur b
      = acc ++ (qualifyingDays op recs s e cur b).take (m - acc.length) := by
  induction b with
  | zero => intro acc cur; simp [searchBaselineDays, qualifyingDays]
  | succ b ih =>
    intro acc cur
    simp only [searchBaselineDays, qualifyingDays]
    by_cases h1 : m ≤ acc.length
    · rw [if_pos h1, Nat.sub_eq_zero_of_le h1]
      simp
    · rw [if_neg h1]
      have hlt : acc.length < m := Nat.lt_of_not_le h1
      by_cases h2 : qualifiesAsBaselineDay op recs s e cur = true
      · rw [if_pos h2, if_pos h2, ih]
        have hmk : m - acc.length = (m - (acc ++ [cur]).length) + 1 := by
          simp only [List.length_append, List.length_cons, List.length_nil]
          omega
        rw [hmk, List.take_succ_cons]
        simp
      · rw [if_neg h2, if_neg h2, ih]

theorem mem_qualifyingDays {op : List Date} {recs : List MeterRecord}
    {s e : Nat} {b : Nat} :
    ∀ {cur d : Date}, d ∈ qualifyingDays op recs s e cur b →
      qualifiesAsBaselineDay op recs s e d = true := by
  induction b with
  | zero => intro cur d h; simp [qualifyingDays] at h
  | succ b ih =>
    intro cur d h
    simp only [qualifyingDays] at h
    by_cases h2 : qualifiesAsBaselineDay op recs s e cur = true
    · rw [if_pos h2] at h
      rcases List.mem_cons.mp h with rfl | h
      · exact h2
      · exact ih h
    · rw [if_neg h2] at h
      exact ih h

theorem length_qualifyingDays_le (op : List Date) (recs : List MeterRecord)
    (s e : Nat) (b : Nat) :
    ∀ cur : Date, (qualifyingDays op recs s e cur b).length ≤ b := by
  induction b with
  | zero => intro cur; simp [qualifyingDays]
  | succ b ih =>
    intro cur
    simp only [qualifyingDays]
    split
    · simpa using Nat.succ_le_succ (ih cur.pred)
    · exact Nat.le_succ_of_le (ih cur.pred)

theorem cbl_ok_elim {op : List Date} {recs : List MeterRecord} {es ee : DateTime}
    {c : Option ℚ} {m : Nat} {resp : DaySelectCBLResponse}
    (h : compute_day_select_cbl op recs es ee c m = .ok resp) :
    resp = mkCBLResponse recs es.date es.time ee.time c
        (searchBaselineDays op recs es.time ee.time m [] es.date.pred 90)
    ∧ m ≤ (searchBaselineDays op recs es.time ee.time m [] es.date.pred 90).length
    ∧ eventWindowAvgs recs es.time ee.time
        (searchBaselineDays op recs es.time ee.time m [] es.date.pred 90) ≠ [] := by
  unfold compute_day_select_cbl at h
  split at h
  · simp at h
  · split at h
    · simp at h
    · split at h
      · simp at h
      · split at h
        · simp at h
        · split at h
          · simp at h
          · rename_i h1 h2 h3 h4 h5
            simp only [Except.ok.injEq] at h
            exact ⟨h.symm, Nat.le_of_not_lt h4, h5⟩

theorem reward_ok_elim {op : List Date} {recs : List MeterRecord} {es ee : DateTime}
    {c : Option ℚ} {committed : ℚ} {m : Nat} {r : DaySelectRewardResponse}
    (h : compute_day_select_reward op recs es ee c committed m = .ok r) :
    ∃ cbl_resp tariff,
      compute_day_select_cbl op recs es ee c m = .ok cbl_resp ∧
      0 < committed ∧
      tariffForDuration (eventDurationHours es ee) = some tariff ∧
      r = mkRewardResponse recs es ee committed cbl_resp tariff := by
  unfold compute_day_select_reward at h
  split at h
  · simp at h
  · rename_i cbl_resp hc
    split at h
    · simp at h
    · rename_i hcom
      split at h
      · simp at h
      · rename_i tariff ht
        simp only [Except.ok.injEq] at h
        exact ⟨cbl_resp, tariff, hc, not_le.mp hcom, ht, h.symm⟩

theorem roundHalfToEven_nonneg {q : ℚ} (h : 0 ≤ q) : 0 ≤ roundHalfToEven q := by
  have hf : (0 : ℤ) ≤ Int.floor q := Int.floor_nonneg.mpr h
  unfold roundHalfToEven
  split
  · exact hf
  · split
    · omega
    · split
      · exact hf
      · omega

theorem pyRound1_nonneg {q : ℚ} (h : 0 ≤ q) : 0 ≤ pyRound1 q := by
  unfold pyRound1
  have h10 : (0 : ℚ) ≤ q * 10 := by positivity
  have := roundHalfToEven_nonneg h10
  have hc : (0 : ℚ) ≤ ((roundHalfToEven (q * 10) : ℤ) : ℚ) := by exact_mod_cast this
  positivity

theorem capAt12_le (x : ℚ) : capAt12 x ≤ 1.2 := by
  unfold capAt12
  split
  · exact le_refl _
  · linarith [not_lt.mp (by assumption : ¬ (1.2 : ℚ) < x)]

theorem capAt12_nonneg {x : ℚ} (h : 0 ≤ x) : 0 ≤ capAt12 x := by
  unfold capAt12
  split
  · norm_num
  · exact h

theorem executionRate_nonneg {ar cc : ℚ} (har : 0 ≤ ar) (hcc : 0 < cc) :
    0 ≤ executionRate ar cc := by
  unfold executionRate
  exact capAt12_nonneg (pyRound1_nonneg (div_nonneg har hcc.le))

theorem filter_records_by_time_window_empty_of_degenerate
    (records : List MeterRecord) (d : Date) {start_t end_t : Nat}
    (h : end_t ≤ start_t) :
    filter_records_by_time_window records d start_t end_t = [] := by
  unfold filter_records_by_time_window
  rw [List.filter_eq_nil_iff]
  intro r _
  simp only [decide_eq_true_eq, not_and, not_lt]
  intro _ hs
  omega

theorem searchBaselineDays_nil_of_no_qualifying {op : List Date}
    {recs : List MeterRecord} {s e m : Nat}
    (hq : ∀ d : Date, qualifiesAsBaselineDay op recs s e d = false) :
    ∀ (b : Nat) (cur : Date), searchBaselineDays op recs s e m [] cur b = [] := by
  intro b
  induction b with
  | zero => intro cur; rfl
  | succ b ih =>
    intro cur
    unfold searchBaselineDays
    rw [hq cur]
    split
    · rfl
    · simpa using ih cur.pred

theorem tariffForDuration_eq_none_iff (d : ℚ) :
    tariffForDuration d = none ↔
      ¬(|d - 2| < 0.1 ∨ |d - 4| < 0.1 ∨ |d - 6| < 0.1) := by
  unfold tariffForDuration
  split
  · rename_i h2
    simp only [reduceCtorEq, false_iff, not_not]
    exact Or.inl h2
  · split
    · rename_i h4
      simp only [reduceCtorEq, false_iff, not_not]
      exact Or.inr (Or.inl h4)
    · split
      · rename_i h6
        simp only [reduceCtorEq, false_iff, not_not]
        exact Or.inr (Or.inr h6)
      · rename_i h2 h4 h6
        simp only [true_iff]
        rintro (h | h | h) <;> [exact h2 h; exact h4 h; exact h6 h]

theorem demoCBL_eval : compute_day_select_cbl [] demoRecords demoStart demoEnd none 20
    = .ok demoCBLResponse := by
  with_unfolding_all rfl

/-- C1: for every successful call to `compute_day_select_cbl`, the result
satisfies `cbl_kw = min(cbl1_kw + adjustment_factor_kw, cbl2_kw)`, hence
`cbl_kw ≤ cbl1_kw + adjustment_factor_kw`, where `cbl2_kw` equals
`contract_capacity_kw` when provided and `cbl1_kw + adjustment_factor_kw`
(an inactive cap) otherwise. -/
theorem claim_C1_cap_invariant (op : List Date) (recs : List MeterRecord)
    (es ee : DateTime) (contract : Option ℚ) (m : Nat)
    (resp : DaySelectCBLResponse)
    (h : compute_day_select_cbl op recs es ee contract m = .ok resp) :
    resp.cbl1_plus_af_kw = resp.cbl1_kw + resp.af_kw ∧
    resp.cbl_kw = min (resp.cbl1_kw + resp.af_kw) resp.cbl2_kw ∧
    resp.cbl_kw ≤ resp.cbl1_kw + resp.af_kw ∧
    resp.cbl2_kw = contract.getD (resp.cbl1_kw + resp.af_kw) := by
  obtain ⟨hr, -, -⟩ := cbl_ok_elim h
  subst hr
  simp only [mkCBLResponse]
  refine ⟨trivial, ?_, ?_, trivial⟩
  · split
    · rename_i hlt
      rw [min_eq_left hlt.le]
    · rename_i hge
      rw [min_eq_right (not_lt.mp hge)]
  · split
    · exact le_refl _
    · rename_i hge
      exact not_lt.mp hge

theorem claim_C1_witness :
    demoCBLResponse.cbl1_plus_af_kw = demoCBLResponse.cbl1_kw + demoCBLResponse.af_kw ∧
    demoCBLResponse.cbl_kw
      = min (demoCBLResponse.cbl1_kw + demoCBLResponse.af_kw) demoCBLResponse.cbl2_kw ∧
    demoCBLResponse.cbl_kw ≤ demoCBLResponse.cbl1_kw + demoCBLResponse.af_kw ∧
    demoCBLResponse.cbl2_kw
      = (none : Option ℚ).getD (demoCBLResponse.cbl1_kw + demoCBLResponse.af_kw) :=
  claim_C1_cap_invariant [] demoRecords demoStart demoEnd none 20 demoCBLResponse demoCBL_eval

theorem demoReward_eval :
    compute_day_select_reward [] demoRecords demoStart demoEnd none 100 20
      = .ok demoRewardResponse := by
  with_unfolding_all rfl

theorem demoReward340_eval :
    compute_day_select_reward [] demoRecords demoStart demoEnd none 340 20
      = .ok demoReward340Response := by
  with_unfolding_all rfl

theorem actualReductionKw_nonneg (cbl_kw : ℚ) (recs : List MeterRecord)
    (es ee : DateTime) : 0 ≤ actualReductionKw cbl_kw recs es ee := by
  unfold actualReductionKw
  exact le_max_right _ _

/-- C9: for every successful computation the adjustment factor is
`max(today_adjust_avg − hist_adjust_avg, 0)` and the actual reduction is
`max(cbl_kw − actual_avg_kw, 0)`; both are therefore nonnegative. -/
theorem claim_C9_nonnegativity (op : List Date) (recs : List MeterRecord)
    (es ee : DateTime) (contract : Option ℚ) (committed : ℚ) (m : Nat) :
    (∀ resp : DaySelectCBLResponse,
      compute_day_select_cbl op recs es ee contract m = .ok resp →
      resp.af_kw = max (resp.today_adjust_avg_kw - resp.hist_adjust_avg_kw) 0 ∧
      0 ≤ resp.af_kw) ∧
    (∀ r : DaySelectRewardResponse,
      compute_day_select_reward op recs es ee contract committed m = .ok r →
      r.actual_reduction_kw = max (r.cbl_kw - r.actual_avg_kw) 0 ∧
      0 ≤ r.actual_reduction_kw) := by
  constructor
  · intro resp h
    obtain ⟨hr, -, -⟩ := cbl_ok_elim h
    subst hr
    simp only [mkCBLResponse]
    exact ⟨trivial, le_max_right _ _⟩
  · intro r h
    obtain ⟨cblr, tariff, hc, hcom, ht, hr⟩ := reward_ok_elim h
    subst hr
    simp only [mkRewardResponse, actualReductionKw]
    exact ⟨trivial, le_max_right _ _⟩

theorem claim_C9_witness :
    (demoCBLResponse.af_kw
        = max (demoCBLResponse.today_adjust_avg_kw - demoCBLResponse.hist_adjust_avg_kw) 0 ∧
      0 ≤ demoCBLResponse.af_kw) ∧
    (demoRewardResponse.actual_reduction_kw
        = max (demoRewardResponse.cbl_kw - demoRewardResponse.actual_avg_kw) 0 ∧
      0 ≤ demoRewardResponse.actual_reduction_kw) :=
  ⟨(claim_C9_nonnegativity [] demoRecords demoStart demoEnd none 100 20).1
      demoCBLResponse demoCBL_eval,
   (claim_C9_nonnegativity [] demoRecords demoStart demoEnd none 100 20).2
      demoRewardResponse demoReward_eval⟩

/-- C2 (amended): for every successful `compute_day_select_reward` call,
the execution rate equals the raw ratio rounded to one decimal by
round-half-to-even (Python's `round`, idealized to exact rationals) and
then capped at 1.2 — not by half-away-from-zero rounding as claimed. -/
theorem claim_C2_execution_rate_formula (op : List Date) (recs : List MeterRecord)
    (es ee : DateTime) (contract : Option ℚ) (committed : ℚ) (m : Nat)
    (r : DaySelectRewardResponse)
    (h : compute_day_select_reward op recs es ee contract committed m = .ok r) :
    r.execution_rate
      = capAt12 (pyRound1 (r.actual_reduction_kw / r.committed_capacity_kw)) := by
  obtain ⟨cblr, tariff, hc, hcom, ht, hr⟩ := reward_ok_elim h
  subst hr
  simp only [mkRewardResponse, executionRate]

theorem claim_C2_witness :
    demoRewardResponse.execution_rate
      = capAt12 (pyRound1 (demoRewardResponse.actual_reduction_kw
          / demoRewardResponse.committed_capacity_kw)) :=
  claim_C2_execution_rate_formula [] demoRecords demoStart demoEnd none 100 20
    demoRewardResponse demoReward_eval

/-- C2 counterexample: with an 85 kW reduction against a 340 kW
commitment the raw ratio is exactly 0.25; the code returns 0.2
(round-half-to-even, as Python's `round` does on this input), while the
claimed half-away-from-zero rounding would give 0.3. -/
theorem claim_C2_counterexample :
    compute_day_select_reward [] demoRecords demoStart demoEnd none 340 20
      = .ok demoReward340Response ∧
    demoReward340Response.actual_reduction_kw / demoReward340Response.committed_capacity_kw
      = 0.25 ∧
    specExecutionRate demoReward340Response.actual_reduction_kw
      demoReward340Response.committed_capacity_kw = 0.3 ∧
    demoReward340Response.execution_rate = 0.2 ∧
    (0.2 : ℚ) ≠ 0.3 := by
  refine ⟨demoReward340_eval, by with_unfolding_all decide, by with_unfolding_all decide,
    by with_unfolding_all decide, by norm_num⟩

theorem reductionRatioOf_cases (x : ℚ) :
    (x < 0.6 → reductionRatioOf x = 0) ∧
    (0.6 ≤ x → x < 0.8 → reductionRatioOf x = 0.8) ∧
    (0.8 ≤ x → x < 0.95 → reductionRatioOf x = 1) ∧
    (0.95 ≤ x → reductionRatioOf x = 1.2) ∧
    (reductionRatioOf x = 0 ∨ reductionRatioOf x = 0.8 ∨
      reductionRatioOf x = 1 ∨ reductionRatioOf x = 1.2) := by
  unfold reductionRatioOf
  split_ifs with h1 h2 h3 <;>
    refine ⟨?_, ?_, ?_, ?_, ?_⟩ <;> try tauto
  all_goals intros
  all_goals first
    | rfl
    | linarith

theorem executionRate_le (ar cc : ℚ) : executionRate ar cc ≤ 1.2 := by
  unfold executionRate
  exact capAt12_le _

/-- C4: for every successful reward computation the reduction ratio is
determined from the execution rate by the tiers `< 0.6 → 0`,
`[0.6, 0.8) → 0.8`, `[0.8, 0.95) → 1.0`, `≥ 0.95 → 1.2`; consequently it
is one of `{0, 0.8, 1.0, 1.2}` and the execution rate lies in
`[0, 1.2]`. -/
theorem claim_C4_reduction_ratio_tiers (op : List Date) (recs : List MeterRecord)
    (es ee : DateTime) (contract : Option ℚ) (committed : ℚ) (m : Nat)
    (r : DaySelectRewardResponse)
    (h : compute_day_select_reward op recs es ee contract committed m = .ok r) :
    (r.execution_rate < 0.6 → r.reduction_ratio = 0) ∧
    (0.6 ≤ r.execution_rate → r.execution_rate < 0.8 → r.reduction_ratio = 0.8) ∧
    (0.8 ≤ r.execution_rate → r.execution_rate < 0.95 → r.reduction_ratio = 1) ∧
    (0.95 ≤ r.execution_rate → r.reduction_ratio = 1.2) ∧
    (r.reduction_ratio = 0 ∨ r.reduction_ratio = 0.8 ∨
      r.reduction_ratio = 1 ∨ r.reduction_ratio = 1.2) ∧
    0 ≤ r.execution_rate ∧ r.execution_rate ≤ 1.2 := by
  obtain ⟨cblr, tariff, hc, hcom, ht, hr⟩ := reward_ok_elim h
  subst hr
  simp only [mkRewardResponse]
  obtain ⟨t1, t2, t3, t4, t5⟩ :=
    reductionRatioOf_cases (executionRate (actualReductionKw cblr.cbl_kw recs es ee) committed)
  exact ⟨t1, t2, t3, t4, t5,
    executionRate_nonneg (actualReductionKw_nonneg _ _ _ _) hcom,
    executionRate_le _ _⟩

theorem claim_C4_witness :
    (demoRewardResponse.reduction_ratio = 0 ∨ demoRewardResponse.reduction_ratio = 0.8 ∨
      demoRewardResponse.reduction_ratio = 1 ∨ demoRewardResponse.reduction_ratio = 1.2) ∧
    0 ≤ demoRewardResponse.execution_rate ∧ demoRewardResponse.execution_rate ≤ 1.2 :=
  (claim_C4_reduction_ratio_tiers [] demoRecords demoStart demoEnd none 100 20
    demoRewardResponse demoReward_eval).2.2.2.2

theorem exec_85_100_eval : executionRate 85 100 = 0.8 := by
  with_unfolding_all decide

theorem tariff4_eval : tariffForDuration 4 = some 1.84 := by
  with_unfolding_all decide

theorem rr08_eval : reductionRatioOf 0.8 = 1 := by
  with_unfolding_all decide

/-- C3 (amended): in the claimed scenario (`committed_capacity_kw = 100`,
computed `actual_reduction_kw = 85`, 4-hour event) the code rounds the
raw ratio 0.85 to one decimal, giving `execution_rate = 0.8` (not 0.85),
`reduction_ratio = 1.0`, and reward `100 × 0.8 × 4 × 1.84 × 1.0 = 588.8`
(not 625.6). -/
theorem claim_C3_scenario (op : List Date) (recs : List MeterRecord)
    (es ee : DateTime) (contract : Option ℚ) (m : Nat)
    (r : DaySelectRewardResponse)
    (h : compute_day_select_reward op recs es ee contract 100 m = .ok r)
    (har : r.actual_reduction_kw = 85)
    (hdur : r.event_duration_hours = 4) :
    r.execution_rate = 0.8 ∧ r.reduction_ratio = 1 ∧ r.reward_ntd = 588.8 := by
  obtain ⟨cblr, tariff, hc, hcom, ht, hr⟩ := reward_ok_elim h
  subst hr
  simp only [mkRewardResponse] at har hdur ⊢
  rw [hdur] at ht
  rw [tariff4_eval] at ht
  have htariff : tariff = 1.84 := (Option.some.inj ht).symm
  rw [har, exec_85_100_eval, hdur, htariff, rr08_eval]
  norm_num

theorem claim_C3_witness :
    demoRewardResponse.execution_rate = 0.8 ∧ demoRewardResponse.reduction_ratio = 1 ∧
    demoRewardResponse.reward_ntd = 588.8 :=
  claim_C3_scenario [] demoRecords demoStart demoEnd none 20 demoRewardResponse
    demoReward_eval rfl rfl

/-- C3 counterexample: on a concrete input realizing the claimed scenario
(committed 100 kW, actual reduction 85 kW, 4-hour event) the code yields
`execution_rate = 0.8` and `reward = 588.8`, not the claimed
`execution_rate = 0.85` and `reward = 625.6`. -/
theorem claim_C3_counterexample :
    compute_day_select_reward [] demoRecords demoStart demoEnd none 100 20
      = .ok demoRewardResponse ∧
    demoRewardResponse.committed_capacity_kw = 100 ∧
    demoRewardResponse.actual_reduction_kw = 85 ∧
    demoRewardResponse.event_duration_hours = 4 ∧
    demoRewardResponse.execution_rate ≠ 0.85 ∧
    demoRewardResponse.reward_ntd ≠ 625.6 := by
  refine ⟨demoReward_eval, rfl, rfl, rfl, ?_, ?_⟩
  · show (0.8 : ℚ) ≠ 0.85
    norm_num
  · show (588.8 : ℚ) ≠ 625.6
    norm_num

theorem demoCBL3h_eval :
    compute_day_select_cbl [] demoRecords demoStart demo3hEnd none 20
      = .ok demoCBLResponse := by
  with_unfolding_all rfl

theorem demo3hDuration_eval : eventDurationHours demoStart demo3hEnd = 3 := by
  with_unfolding_all decide

theorem demo3hDuration_unsupported :
    ¬(|eventDurationHours demoStart demo3hEnd - 2| < 0.1 ∨
      |eventDurationHours demoStart demo3hEnd - 4| < 0.1 ∨
      |eventDurationHours demoStart demo3hEnd - 6| < 0.1) := by
  rw [demo3hDuration_eval]
  rw [show |(3 : ℚ) - 2| = 1 by norm_num [abs_of_nonneg],
      show |(3 : ℚ) - 4| = 1 by rw [abs_sub_comm]; norm_num [abs_of_nonneg],
      show |(3 : ℚ) - 6| = 3 by rw [abs_sub_comm]; norm_num [abs_of_nonneg]]
  norm_num

/-- C5: given the baseline computation succeeded and the committed
capacity is positive, the reward computation fails with
`UnsupportedDuration` exactly when the event duration is not within 0.1 h
of 2, 4 or 6 hours; otherwise the tariff is 2.47 for ≈2 h, 1.84 for ≈4 h
and 1.69 for ≈6 h. -/
theorem claim_C5_duration_tariff (op : List Date) (recs : List MeterRecord)
    (es ee : DateTime) (contract : Option ℚ) (committed : ℚ) (m : Nat)
    (cblr : DaySelectCBLResponse)
    (hc : compute_day_select_cbl op recs es ee contract m = .ok cblr)
    (hcom : 0 < committed) :
    (compute_day_select_reward op recs es ee contract committed m
        = .error .unsupportedDuration
      ↔ ¬(|eventDurationHours es ee - 2| < 0.1 ∨ |eventDurationHours es ee - 4| < 0.1 ∨
          |eventDurationHours es ee - 6| < 0.1)) ∧
    (∀ r, compute_day_select_reward op recs es ee contract committed m = .ok r →
      (|eventDurationHours es ee - 2| < 0.1 → r.tariff_rate = 2.47) ∧
      (|eventDurationHours es ee - 4| < 0.1 → r.tariff_rate = 1.84) ∧
      (|eventDurationHours es ee - 6| < 0.1 → r.tariff_rate = 1.69)) := by
  constructor
  · rw [← tariffForDuration_eq_none_iff]
    unfold compute_day_select_reward
    rw [hc]
    dsimp only
    rw [if_neg (not_le.mpr hcom)]
    cases ht : tariffForDuration (eventDurationHours es ee) with
    | none => simp
    | some t => simp
  · intro r h
    obtain ⟨cblr2, tariff, hc2, -, ht, hr⟩ := reward_ok_elim h
    subst hr
    simp only [mkRewardResponse]
    unfold tariffForDuration at ht
    refine ⟨?_, ?_, ?_⟩ <;> intro hd
    · rw [if_pos hd] at ht
      exact (Option.some.inj ht).symm
    · have h2 : ¬(|eventDurationHours es ee - 2| < 0.1) := by
        rw [abs_sub_lt_iff] at hd ⊢
        intro hcon
        have := hd.2
        have := hcon.1
        linarith
      rw [if_neg h2, if_pos hd] at ht
      exact (Option.some.inj ht).symm
    · have h2 : ¬(|eventDurationHours es ee - 2| < 0.1) := by
        rw [abs_sub_lt_iff] at hd ⊢
        intro hcon
        have := hd.2
        have := hcon.1
        linarith
      have h4 : ¬(|eventDurationHours es ee - 4| < 0.1) := by
        rw [abs_sub_lt_iff] at hd ⊢
        intro hcon
        have := hd.2
        have := hcon.1
        linarith
      rw [if_neg h2, if_neg h4, if_pos hd] at ht
      exact (Option.some.inj ht).symm

theorem claim_C5_witness :
    0 < (100 : ℚ) ∧
    compute_day_select_reward [] demoRecords demoStart demo3hEnd none 100 20
      = .error .unsupportedDuration :=
  ⟨by norm_num,
   (claim_C5_duration_tariff [] demoRecords demoStart demo3hEnd none 100 20
      demoCBLResponse demoCBL3h_eval (by norm_num)).1.mpr demo3hDuration_unsupported⟩

/-- C6: no baseline source day of a successful CBL computation is a
Saturday, a Sunday, a configured off-peak day, or outside the May 1 to
October 31 season. -/
theorem claim_C6_exclusions (op : List Date) (recs : List MeterRecord)
    (es ee : DateTime) (contract : Option ℚ) (m : Nat)
    (resp : DaySelectCBLResponse)
    (h : compute_day_select_cbl op recs es ee contract m = .ok resp) :
    ∀ d ∈ resp.baseline_source_days,
      d.weekday ≠ 5 ∧ d.weekday ≠ 6 ∧ d ∉ op ∧ is_in_day_select_season d = true := by
  obtain ⟨hr, -, -⟩ := cbl_ok_elim h
  subst hr
  intro d hd
  simp only [mkCBLResponse] at hd
  rw [mem_sortDates] at hd
  rw [searchBaselineDays_eq_take] at hd
  simp only [List.nil_append] at hd
  have hq : qualifiesAsBaselineDay op recs es.time ee.time d = true :=
    mem_qualifyingDays (List.take_subset _ _ hd)
  unfold qualifiesAsBaselineDay at hq
  simp only [Bool.and_eq_true, Bool.not_eq_true'] at hq
  obtain ⟨⟨⟨hw, hop⟩, hs⟩, -⟩ := hq
  unfold is_weekend at hw
  unfold is_off_peak_day at hop
  simp only [decide_eq_false_iff_not, not_le] at hw
  simp only [Bool.or_eq_false_iff, decide_eq_false_iff_not] at hop
  exact ⟨by omega, by omega, hop.1, hs⟩

theorem claim_C6_witness :
    (aug24 29).weekday ≠ 5 ∧ (aug24 29).weekday ≠ 6 ∧ aug24 29 ∉ ([] : List Date) ∧
      is_in_day_select_season (aug24 29) = true :=
  claim_C6_exclusions [] demoRecords demoStart demoEnd none 20 demoCBLResponse demoCBL_eval
    (aug24 29) (by decide)

/-- C7: a successful CBL computation collects exactly `min_baseline_days`
baseline days among at most the 90 examined; an `InsufficientBaseline`
failure reports exactly the number of days, fewer than
`min_baseline_days`, that qualify in the whole 90-day backward walk
starting at `event_date - 1`. -/
theorem claim_C7_baseline_count (op : List Date) (recs : List MeterRecord)
    (es ee : DateTime) (contract : Option ℚ) (m : Nat) :
    (∀ resp, compute_day_select_cbl op recs es ee contract m = .ok resp →
      resp.baseline_source_days.length = m) ∧
    (∀ n, compute_day_select_cbl op recs es ee contract m
        = .error (.insufficientBaseline n) →
      n = (qualifyingDays op recs es.time ee.time es.date.pred 90).length ∧ n < m) := by
  constructor
  · intro resp h
    obtain ⟨hr, hlen, -⟩ := cbl_ok_elim h
    subst hr
    simp only [mkCBLResponse, length_sortDates]
    rw [searchBaselineDays_eq_take] at hlen ⊢
    simp only [List.nil_append, List.length_nil, Nat.sub_zero, List.length_take] at hlen ⊢
    omega
  · intro n h
    unfold compute_day_select_cbl at h
    split at h
    · simp at h
    · split at h
      · simp at h
      · split at h
        · simp at h
        · split at h
          · rename_i hlt
            simp only [Except.error.injEq, DRError.insufficientBaseline.injEq] at h
            rw [searchBaselineDays_eq_take] at hlt h
            simp only [List.nil_append, List.length_nil, Nat.sub_zero,
              List.length_take] at hlt h
            omega
          · split at h
            · simp at h
            · simp at h

theorem failCBL_eval :
    compute_day_select_cbl [] failRecords demoStart demoEnd none 20
      = .error (.insufficientBaseline 1) := by
  with_unfolding_all rfl

theorem claim_C7_witness :
    demoCBLResponse.baseline_source_days.length = 20 ∧
    (1 = (qualifyingDays [] failRecords demoStart.time demoEnd.time
        demoStart.date.pred 90).length ∧ 1 < 20) :=
  ⟨(claim_C7_baseline_count [] demoRecords demoStart demoEnd none 20).1
      demoCBLResponse demoCBL_eval,
   (claim_C7_baseline_count [] failRecords demoStart demoEnd none 20).2 1 failCBL_eval⟩

theorem cbl_not_early_error (op : List Date) (recs : List MeterRecord)
    (es ee : DateTime) (contract : Option ℚ) (m : Nat)
    (h1 : ¬ ee.toSeconds ≤ es.toSeconds)
    (h2 : is_in_day_select_season es.date = true)
    (h3 : ¬ recs = []) :
    compute_day_select_cbl op recs es ee contract m ≠ .error .invalidWindow ∧
    compute_day_select_cbl op recs es ee contract m ≠ .error .outOfSeason ∧
    compute_day_select_cbl op recs es ee contract m ≠ .error .noData := by
  unfold compute_day_select_cbl
  rw [if_neg h1, if_neg (by simp [h2]), if_neg h3]
  refine ⟨?_, ?_, ?_⟩ <;>
    · intro h
      split at h
      · simp at h
      · split at h <;> simp at h

theorem cbl_early_error_iffs (op : List Date) (recs : List MeterRecord)
    (es ee : DateTime) (contract : Option ℚ) (m : Nat) :
    (compute_day_select_cbl op recs es ee contract m = .error .invalidWindow
      ↔ ee.toSeconds ≤ es.toSeconds) ∧
    (compute_day_select_cbl op recs es ee contract m = .error .outOfSeason
      ↔ es.toSeconds < ee.toSeconds ∧ is_in_day_select_season es.date = false) ∧
    (compute_day_select_cbl op recs es ee contract m = .error .noData
      ↔ es.toSeconds < ee.toSeconds ∧ is_in_day_select_season es.date = true ∧
        recs = []) := by
  by_cases h1 : ee.toSeconds ≤ es.toSeconds
  · have hres : compute_day_select_cbl op recs es ee contract m = .error .invalidWindow := by
      unfold compute_day_select_cbl
      rw [if_pos h1]
    refine ⟨iff_of_true hres h1, iff_of_false (by simp [hres]) ?_,
      iff_of_false (by simp [hres]) ?_⟩
    · rintro ⟨hlt, -⟩
      omega
    · rintro ⟨hlt, -⟩
      omega
  · by_cases h2 : is_in_day_select_season es.date = true
    · by_cases h3 : recs = []
      · have hres : compute_day_select_cbl op recs es ee contract m = .error .noData := by
          unfold compute_day_select_cbl
          rw [if_neg h1, if_neg (by simp [h2]), if_pos h3]
        refine ⟨iff_of_false (by simp [hres]) h1,
          iff_of_false (by simp [hres]) ?_,
          iff_of_true hres ⟨by omega, h2, h3⟩⟩
        rintro ⟨-, hs⟩
        rw [h2] at hs
        exact Bool.noConfusion hs
      · obtain ⟨g1, g2, g3⟩ := cbl_not_early_error op recs es ee contract m h1 h2 h3
        refine ⟨iff_of_false g1 h1, iff_of_false g2 ?_, iff_of_false g3 ?_⟩
        · rintro ⟨-, hs⟩
          rw [h2] at hs
          exact Bool.noConfusion hs
        · rintro ⟨-, -, hr⟩
          exact h3 hr
    · simp only [Bool.not_eq_true] at h2
      have hres : compute_day_select_cbl op recs es ee contract m = .error .outOfSeason := by
        unfold compute_day_select_cbl
        rw [if_neg h1, if_pos (by rw [h2]; rfl)]
      refine ⟨iff_of_false (by simp [hres]) h1,
        iff_of_true hres ⟨by omega, h2⟩,
        iff_of_false (by simp [hres]) ?_⟩
      rintro ⟨-, hs, -⟩
      rw [h2] at hs
      exact Bool.noConfusion hs

/-- C8: the early failures of `compute_day_select_cbl` are characterized
exactly and in precedence order: `InvalidWindow` iff the event end is not
after the start; `OutOfSeason` iff the window order holds but the event
date is outside May 1 – October 31; `NoData` iff both hold and the
customer has no samples; in particular any event dated December 15 with a
positive-length same-day window fails with `OutOfSeason` whatever the
record set. -/
theorem claim_C8_error_precedence (op : List Date) (recs : List MeterRecord)
    (es ee : DateTime) (contract : Option ℚ) (m : Nat) :
    (compute_day_select_cbl op recs es ee contract m = .error .invalidWindow
      ↔ ee.toSeconds ≤ es.toSeconds) ∧
    (compute_day_select_cbl op recs es ee contract m = .error .outOfSeason
      ↔ es.toSeconds < ee.toSeconds ∧ is_in_day_select_season es.date = false) ∧
    (compute_day_select_cbl op recs es ee contract m = .error .noData
      ↔ es.toSeconds < ee.toSeconds ∧ is_in_day_select_season es.date = true ∧
        recs = []) ∧
    (∀ (recs2 : List MeterRecord) (t1 t2 : Nat), t1 < t2 →
      compute_day_select_cbl op recs2 ⟨⟨2024, 12, 15⟩, t1⟩ ⟨⟨2024, 12, 15⟩, t2⟩ contract m
        = .error .outOfSeason) := by
  obtain ⟨g1, g2, g3⟩ := cbl_early_error_iffs op recs es ee contract m
  refine ⟨g1, g2, g3, ?_⟩
  intro recs2 t1 t2 hlt
  refine (cbl_early_error_iffs op recs2 ⟨⟨2024, 12, 15⟩, t1⟩ ⟨⟨2024, 12, 15⟩, t2⟩
    contract m).2.1.mpr ⟨?_, ?_⟩
  · unfold DateTime.toSeconds
    dsimp only
    omega
  · dsimp only
    decide

theorem claim_C8_witness :
    compute_day_select_cbl [] demoRecords ⟨⟨2024, 12, 15⟩, 50400⟩ ⟨⟨2024, 12, 15⟩, 64800⟩
      none 20 = .error .outOfSeason :=
  (claim_C8_error_precedence [] demoRecords demoStart demoEnd none 20).2.2.2
    demoRecords 50400 64800 (by norm_num)

/-- C10: an event whose local window crosses midnight (end time-of-day at
or before start time-of-day, duration under 24 h) that passes the
window-order, season and nonempty-sample checks always fails with
`InsufficientBaseline` reporting 0 days found, because candidate days are
tested with the same-day filter `start_t ≤ t < end_t`, which no sample
can satisfy. -/
theorem claim_C10_cross_midnight_no_baseline (op : List Date)
    (recs : List MeterRecord) (es ee : DateTime) (contract : Option ℚ) (m : Nat)
    (horder : es.toSeconds < ee.toSeconds)
    (hcross : ee.time ≤ es.time)
    (hshort : ee.toSeconds < es.toSeconds + 86400)
    (hseason : is_in_day_select_season es.date = true)
    (hrecs : recs ≠ []) (hm : 0 < m) :
    compute_day_select_cbl op recs es ee contract m
      = .error (.insufficientBaseline 0) := by
  have hq : ∀ d : Date, qualifiesAsBaselineDay op recs es.time ee.time d = false := by
    intro d
    unfold qualifiesAsBaselineDay
    rw [filter_records_by_time_window_empty_of_degenerate recs d hcross]
    simp
  unfold compute_day_select_cbl
  rw [if_neg (by omega : ¬ ee.toSeconds ≤ es.toSeconds),
    if_neg (by simp [hseason]), if_neg hrecs,
    searchBaselineDays_nil_of_no_qualifying hq]
  simp [hm]

theorem claim_C10_witness :
    compute_day_select_cbl [] failRecords ⟨aug24 30, 79200⟩ ⟨⟨2024, 8, 31⟩, 7200⟩ none 20
      = .error (.insufficientBaseline 0) :=
  claim_C10_cross_midnight_no_baseline [] failRecords ⟨aug24 30, 79200⟩
    ⟨⟨2024, 8, 31⟩, 7200⟩ none 20 (by decide) (by decide) (by decide) (by decide)
    (by simp [failRecords]) (by norm_num)
